import Mathlib

/-! # Recommendations service: a shallow embedding

Definitions translated from `src/service/routes.py` of the recommendations
service, together with a model of the persistence layer (`service/models.py`,
which is not among the sources) taken from the specification.  The query
string of a request is modelled as an association list, the store as a list
of records, and the HTTP handlers as pure functions returning a result and
the new store. -/

/-- Raw query parameters of a request (werkzeug `request.args`): an ordered
list of name-value pairs; lookup returns the first value bound to a name. -/
abbrev QueryArgs := List (String × String)

/-- `request.args.get name`: the first value bound to `name`, if any. -/
def getArg (raw : QueryArgs) (name : String) : Option String :=
  (raw.find? (fun p => p.1 == name)).map (fun p => p.2)

/-- Tail of a Python integer digit string: digits, with single underscores
allowed between digits. -/
def digitsTail : List Char → Bool
  | [] => true
  | '_' :: [] => false
  | '_' :: c :: rest => c.isDigit && digitsTail rest
  | c :: rest => c.isDigit && digitsTail rest

/-- A nonempty Python digit string (single underscore separators allowed). -/
def digitsOk : List Char → Bool
  | [] => false
  | c :: rest => c.isDigit && digitsTail rest

/-- Numeric value of a digit string, ignoring underscore separators. -/
def digitsVal (cs : List Char) : Nat :=
  cs.foldl (fun acc c => if c == '_' then acc else 10 * acc + (c.toNat - 48)) 0

/-- The whitespace stripping Python `int` performs on a string argument,
over the character list. -/
def stripWs (cs : List Char) : List Char :=
  ((cs.dropWhile Char.isWhitespace).reverse.dropWhile Char.isWhitespace).reverse

/-- Python `int(s)` applied to a string: optional surrounding whitespace,
an optional sign, then a nonempty digit string; `none` models a raised
`ValueError`. -/
def pythonInt (s : String) : Option Int :=
  match stripWs s.toList with
  | '+' :: rest => if digitsOk rest then some (Int.ofNat (digitsVal rest)) else none
  | '-' :: rest => if digitsOk rest then some (-Int.ofNat (digitsVal rest)) else none
  | cs => if digitsOk cs then some (Int.ofNat (digitsVal cs)) else none

/-- `parse_int_param` from `routes.py`: `int(request.args.get(param_name))`,
raising `BadRequest` when the value is missing (`TypeError`) or is not an
integer (`ValueError`). -/
def parse_int_param (raw : QueryArgs) (param_name : String) : Except String Int :=
  match getArg raw param_name with
  | none => Except.error "Invalid data type: must be an integer"
  | some s =>
    match pythonInt s with
    | some n => Except.ok n
    | none => Except.error "Invalid data type: must be an integer"

/-- `validate_enum_param` from `routes.py`: raises `BadRequest` when the
value is not among the valid options, and returns it unchanged otherwise. -/
def validate_enum_param (param_name : String) (value : String)
    (valid_options : List String) : Except String String :=
  if value ∈ valid_options then Except.ok value
  else Except.error ("Invalid " ++ param_name ++ ": must be one of the valid options")

/-- The result of `recommendation_args.parse_args()`: each registered query
argument, parsed (`type=int` arguments as integers), `none` when absent. -/
structure ParsedArgs where
  product_id : Option Int
  recommended_id : Option Int
  recommendation_type : Option String
  status : Option String
  page : Option Int
  limit : Option Int
  sort_by : Option String
  order : Option String
deriving DecidableEq, Repr

/-- One `type=int` argument of the reqparse parser: absent arguments parse
to `none`; a present value that `int()` rejects aborts with 400. -/
def parseIntArg (raw : QueryArgs) (name : String) : Except String (Option Int) :=
  match getArg raw name with
  | none => Except.ok none
  | some s =>
    match pythonInt s with
    | some n => Except.ok (some n)
    | none => Except.error ("invalid literal for the argument " ++ name)

/-- `recommendation_args.parse_args()` on the raw query parameters: parses
the four `type=int` arguments (aborting with 400 on the first failure) and
passes the four `type=str` arguments through. -/
def parse_args (raw : QueryArgs) : Except String ParsedArgs :=
  match parseIntArg raw "product_id" with
  | Except.error e => Except.error e
  | Except.ok pid =>
    match parseIntArg raw "recommended_id" with
    | Except.error e => Except.error e
    | Except.ok rcid =>
      match parseIntArg raw "page" with
      | Except.error e => Except.error e
      | Except.ok pg =>
        match parseIntArg raw "limit" with
        | Except.error e => Except.error e
        | Except.ok lim =>
          Except.ok
            { product_id := pid
              recommended_id := rcid
              recommendation_type := getArg raw "recommendation_type"
              status := getArg raw "status"
              page := pg
              limit := lim
              sort_by := getArg raw "sort_by"
              order := getArg raw "order" }

/-- The filter specification built by `filters_from_args`: one optional
entry per recognised query parameter (a `none` field models an absent
dictionary key). -/
structure Filters where
  product_id : Option Int := none
  recommended_id : Option Int := none
  page : Option Int := none
  limit : Option Int := none
  recommendation_type : Option String := none
  status : Option String := none
  sort_by : Option String := none
  order : Option String := none
deriving DecidableEq, Repr

/-- `filters_from_args` from `routes.py`: builds the filters dictionary from
the parsed args; integer parameters are re-validated against the raw query
string through `parse_int_param`, enum parameters through
`validate_enum_param`, and `sort_by`/`order` are passed through.  Each
bind step is one `if ... is not None` block of the source. -/
def filters_from_args (raw : QueryArgs) (args : ParsedArgs) : Except String Filters :=
  (match args.product_id with
   | some _ =>
     (parse_int_param raw "product_id").bind fun n =>
       Except.ok ({ product_id := some n } : Filters)
   | none => Except.ok ({} : Filters)).bind fun filters =>
  (match args.recommended_id with
   | some _ =>
     (parse_int_param raw "recommended_id").bind fun n =>
       Except.ok { filters with recommended_id := some n }
   | none => Except.ok filters).bind fun filters =>
  (match args.page with
   | some _ =>
     (parse_int_param raw "page").bind fun n =>
       Except.ok { filters with page := some n }
   | none => Except.ok filters).bind fun filters =>
  (match args.limit with
   | some _ =>
     (parse_int_param raw "limit").bind fun n =>
       Except.ok { filters with limit := some n }
   | none => Except.ok filters).bind fun filters =>
  (match args.recommendation_type with
   | some v =>
     (validate_enum_param "recommendation_type" v
       ["cross-sell", "up-sell", "accessory"]).bind fun t =>
       Except.ok { filters with recommendation_type := some t }
   | none => Except.ok filters).bind fun filters =>
  (match args.status with
   | some v =>
     (validate_enum_param "status" v ["active", "expired", "draft"]).bind fun s =>
       Except.ok { filters with status := some s }
   | none => Except.ok filters).bind fun filters =>
  Except.ok
    (let filters := match args.sort_by with
      | some v => { filters with sort_by := some v }
      | none => filters
     match args.order with
     | some v => { filters with order := some v }
     | none => filters)

/-- Filter construction performed by the list route
(`RecommendationCollection.get`): `parse_args` followed by
`filters_from_args` over the same raw query parameters. -/
def listFilters (raw : QueryArgs) : Except String Filters :=
  match parse_args raw with
  | Except.error e => Except.error e
  | Except.ok args => filters_from_args raw args

/-- A stored Recommendation record (class `Recommendations` of the data
model): the fields of the record JSON shape, with the two timestamps
modelled as abstract instants. -/
structure Recommendations where
  id : Int
  product_id : Int
  recommended_id : Int
  recommendation_type : String
  status : String
  like : Int
  dislike : Int
  created_at : Nat
  last_updated : Nat
deriving DecidableEq, Repr

/-- The persistence store: the list of stored records. -/
abbrev Store := List Recommendations

/-- Modelled from the spec: the persistence engine's find-by-id
(`Recommendations.find`), which returns the record whose `id` matches,
if any. -/
def Recommendations.find (store : Store) (rid : Int) : Option Recommendations :=
  store.find? (fun r => r.id == rid)

/-- Modelled from the spec: the store's `update` persists the record in
place of the one carrying the same `id` and refreshes the store-set
`last_updated` timestamp; it yields the persisted record and the new
store. -/
def Recommendations.update (r : Recommendations) (store : Store) (now : Nat) :
    Recommendations × Store :=
  let r' : Recommendations := { r with last_updated := now }
  (r', store.map (fun old => if old.id == r.id then r' else old))

/-- Modelled from the spec: the store's `delete` removes the record with
the record's `id` from the store. -/
def Recommendations.delete (r : Recommendations) (store : Store) : Store :=
  store.filter (fun x => x.id != r.id)

/-- An update-request payload: the mutable fields, plus an optional `id`
a client may try to smuggle in. -/
structure Payload where
  id : Option Int
  product_id : Int
  recommended_id : Int
  recommendation_type : String
  status : String
  like : Int
  dislike : Int
deriving DecidableEq, Repr

/-- Modelled from the spec: `deserialize` replaces all mutable fields of
the record from the payload ("full replace of mutable fields"); a payload
carrying an `id` also overwrites the record's `id` (the update route
overwrites it again afterwards); the store-set timestamps are untouched. -/
def Recommendations.deserialize (r : Recommendations) (p : Payload) : Recommendations :=
  { r with
    id := p.id.getD r.id
    product_id := p.product_id
    recommended_id := p.recommended_id
    recommendation_type := p.recommendation_type
    status := p.status
    like := p.like
    dislike := p.dislike }

/-- `RecommendationResource.get`: retrieve a single Recommendation; 404
when no record has the id, otherwise the serialized record with 200. -/
def RecommendationResource.get (store : Store) (recommendation_id : Int) :
    Except Nat (Recommendations × Nat) :=
  match Recommendations.find store recommendation_id with
  | none => Except.error 404
  | some recommendation => Except.ok (recommendation, 200)

/-- `RecommendationResource.put`: update a Recommendation; 404 when no
record has the id; otherwise deserializes the payload into the record,
forces the record's `id` back to the path parameter, persists, and returns
the updated record with 200. -/
def RecommendationResource.put (store : Store) (recommendation_id : Int)
    (payload : Payload) (now : Nat) : Except Nat (Recommendations × Nat) × Store :=
  match Recommendations.find store recommendation_id with
  | none => (Except.error 404, store)
  | some recommendation =>
    let r1 := recommendation.deserialize payload
    let r2 : Recommendations := { r1 with id := recommendation_id }
    let upd := Recommendations.update r2 store now
    (Except.ok (upd.1, 200), upd.2)

/-- `RecommendationResource.delete`: delete a Recommendation; removes the
record when present and answers 204 in either case. -/
def RecommendationResource.delete (store : Store) (recommendation_id : Int) :
    Nat × Store :=
  match Recommendations.find store recommendation_id with
  | none => (204, store)
  | some recommendation => (204, recommendation.delete store)

/-- `LikeResource.put`: increment `like` of a Recommendation by 1; 404 when
no record has the id; otherwise persists and returns the updated record
with 200. -/
def LikeResource.put (store : Store) (recommendation_id : Int) (now : Nat) :
    Except Nat (Recommendations × Nat) × Store :=
  match Recommendations.find store recommendation_id with
  | none => (Except.error 404, store)
  | some recommendation =>
    let r1 : Recommendations := { recommendation with like := recommendation.like + 1 }
    let upd := Recommendations.update r1 store now
    (Except.ok (upd.1, 200), upd.2)

/-- `DislikeResource.put`: increment `dislike` of a Recommendation by 1;
404 when no record has the id; otherwise persists and returns the updated
record with 200. -/
def DislikeResource.put (store : Store) (recommendation_id : Int) (now : Nat) :
    Except Nat (Recommendations × Nat) × Store :=
  match Recommendations.find store recommendation_id with
  | none => (Except.error 404, store)
  | some recommendation =>
    let r1 : Recommendations := { recommendation with dislike := recommendation.dislike + 1 }
    let upd := Recommendations.update r1 store now
    (Except.ok (upd.1, 200), upd.2)

/-- A concrete record used to instantiate hypotheses of the theorems
below on concrete inputs. -/
def demoRec : Recommendations :=
  { id := 1
    product_id := 10
    recommended_id := 20
    recommendation_type := "cross-sell"
    status := "active"
    like := 3
    dislike := 0
    created_at := 0
    last_updated := 0 }

/-- A concrete two-record store. -/
def demoStore : Store :=
  [demoRec, { demoRec with id := 2, like := 5, status := "draft" }]

/-- A concrete update payload carrying a foreign `id`. -/
def demoPayload : Payload :=
  { id := some 99
    product_id := 11
    recommended_id := 21
    recommendation_type := "up-sell"
    status := "draft"
    like := 7
    dislike := 2 }

/-! ## Lemmas about the embedded operations -/

lemma except_bind_ok {α β : Type} (x : Except String α) (g : α → Except String β) (b : β) :
    Except.bind x g = Except.ok b ↔ ∃ a, x = Except.ok a ∧ g a = Except.ok b := by
  cases x with
  | error e => simp [Except.bind]
  | ok a => simp [Except.bind]

lemma bind_exists_error {α β : Type} (x : Except String α) (g : α → Except String β)
    (h : ∀ a, ∃ e, g a = Except.error e) : ∃ e, Except.bind x g = Except.error e := by
  cases x with
  | error e => exact ⟨e, rfl⟩
  | ok a => simpa [Except.bind] using h a

lemma int_step_char (raw : QueryArgs) (name : String) (v : Option Int)
    (upd : Int → Filters) (prev f' : Filters)
    (h : (match v with
          | some _ => (parse_int_param raw name).bind fun n => Except.ok (upd n)
          | none => Except.ok prev) = Except.ok f') :
    (v = none ∧ f' = prev) ∨
    (v ≠ none ∧ ∃ n, parse_int_param raw name = Except.ok n ∧ f' = upd n) := by
  cases v with
  | none => exact Or.inl ⟨rfl, (Except.ok.injEq _ _ ▸ h).symm⟩
  | some x =>
    refine Or.inr ⟨by simp, ?_⟩
    rw [except_bind_ok] at h
    obtain ⟨n, hn, hp⟩ := h
    exact ⟨n, hn, (by simpa using hp.symm)⟩

lemma enum_step_char (name : String) (v : Option String) (opts : List String)
    (upd : String → Filters) (prev f' : Filters)
    (h : (match v with
          | some w => (validate_enum_param name w opts).bind fun t => Except.ok (upd t)
          | none => Except.ok prev) = Except.ok f') :
    (v = none ∧ f' = prev) ∨
    (∃ w, v = some w ∧ w ∈ opts ∧ f' = upd w) := by
  cases v with
  | none => exact Or.inl ⟨rfl, (by simpa using h.symm)⟩
  | some w =>
    right
    rw [except_bind_ok] at h
    obtain ⟨t, ht, hp⟩ := h
    unfold validate_enum_param at ht
    by_cases hm : w ∈ opts
    · rw [if_pos hm, Except.ok.injEq] at ht
      exact ⟨w, rfl, hm, by simp [← ht, ← (by simpa using hp : upd t = f')]⟩
    · rw [if_neg hm] at ht
      exact absurd ht (by simp)

lemma filters_from_args_ok_char (raw : QueryArgs) (args : ParsedArgs) (f : Filters)
    (h : filters_from_args raw args = Except.ok f) :
    (args.product_id = none → f.product_id = none) ∧
    (args.product_id ≠ none →
      ∃ n, parse_int_param raw "product_id" = Except.ok n ∧ f.product_id = some n) ∧
    (args.recommended_id = none → f.recommended_id = none) ∧
    (args.recommended_id ≠ none →
      ∃ n, parse_int_param raw "recommended_id" = Except.ok n ∧ f.recommended_id = some n) ∧
    (args.page = none → f.page = none) ∧
    (args.page ≠ none → ∃ n, parse_int_param raw "page" = Except.ok n ∧ f.page = some n) ∧
    (args.limit = none → f.limit = none) ∧
    (args.limit ≠ none → ∃ n, parse_int_param raw "limit" = Except.ok n ∧ f.limit = some n) ∧
    (args.recommendation_type = none → f.recommendation_type = none) ∧
    (∀ w, args.recommendation_type = some w →
      w ∈ ["cross-sell", "up-sell", "accessory"] ∧ f.recommendation_type = some w) ∧
    (args.status = none → f.status = none) ∧
    (∀ w, args.status = some w → w ∈ ["active", "expired", "draft"] ∧ f.status = some w) ∧
    f.sort_by = args.sort_by ∧
    f.order = args.order := by
  unfold filters_from_args at h
  rw [except_bind_ok] at h; obtain ⟨f1, h1, h⟩ := h
  rw [except_bind_ok] at h; obtain ⟨f2, h2, h⟩ := h
  rw [except_bind_ok] at h; obtain ⟨f3, h3, h⟩ := h
  rw [except_bind_ok] at h; obtain ⟨f4, h4, h⟩ := h
  rw [except_bind_ok] at h; obtain ⟨f5, h5, h⟩ := h
  rw [except_bind_ok] at h; obtain ⟨f6, h6, h⟩ := h
  rw [Except.ok.injEq] at h
  have c1 := int_step_char raw "product_id" args.product_id
    (fun n => { product_id := some n }) {} f1 h1
  have c2 := int_step_char raw "recommended_id" args.recommended_id
    (fun n => { f1 with recommended_id := some n }) f1 f2 h2
  have c3 := int_step_char raw "page" args.page
    (fun n => { f2 with page := some n }) f2 f3 h3
  have c4 := int_step_char raw "limit" args.limit
    (fun n => { f3 with limit := some n }) f3 f4 h4
  have c5 := enum_step_char "recommendation_type" args.recommendation_type
    ["cross-sell", "up-sell", "accessory"]
    (fun w => { f4 with recommendation_type := some w }) f4 f5 h5
  have c6 := enum_step_char "status" args.status ["active", "expired", "draft"]
    (fun w => { f5 with status := some w }) f5 f6 h6
  have a1 : args.product_id = none → f1.product_id = none := by
    intro ha
    rcases c1 with ⟨_, rfl⟩ | ⟨hne, _⟩
    · rfl
    · exact absurd ha hne
  have b1 : args.product_id ≠ none →
      ∃ n, parse_int_param raw "product_id" = Except.ok n ∧ f1.product_id = some n := by
    intro ha
    rcases c1 with ⟨he, _⟩ | ⟨_, n, hp, rfl⟩
    · exact absurd he ha
    · exact ⟨n, hp, rfl⟩
  have n1rid : f1.recommended_id = none := by
    rcases c1 with ⟨_, rfl⟩ | ⟨_, _, _, rfl⟩ <;> rfl
  have n1pg : f1.page = none := by
    rcases c1 with ⟨_, rfl⟩ | ⟨_, _, _, rfl⟩ <;> rfl
  have n1lim : f1.limit = none := by
    rcases c1 with ⟨_, rfl⟩ | ⟨_, _, _, rfl⟩ <;> rfl
  have n1ty : f1.recommendation_type = none := by
    rcases c1 with ⟨_, rfl⟩ | ⟨_, _, _, rfl⟩ <;> rfl
  have n1st : f1.status = none := by
    rcases c1 with ⟨_, rfl⟩ | ⟨_, _, _, rfl⟩ <;> rfl
  have n1sb : f1.sort_by = none := by
    rcases c1 with ⟨_, rfl⟩ | ⟨_, _, _, rfl⟩ <;> rfl
  have n1or : f1.order = none := by
    rcases c1 with ⟨_, rfl⟩ | ⟨_, _, _, rfl⟩ <;> rfl
  have a2 : args.recommended_id = none → f2.recommended_id = f1.recommended_id := by
    intro ha
    rcases c2 with ⟨_, rfl⟩ | ⟨hne, _⟩
    · rfl
    · exact absurd ha hne
  have b2 : args.recommended_id ≠ none →
      ∃ n, parse_int_param raw "recommended_id" = Except.ok n ∧ f2.recommended_id = some n := by
    intro ha
    rcases c2 with ⟨he, _⟩ | ⟨_, n, hp, rfl⟩
    · exact absurd he ha
    · exact ⟨n, hp, rfl⟩
  have p2pid : f2.product_id = f1.product_id := by
    rcases c2 with ⟨_, rfl⟩ | ⟨_, _, _, rfl⟩ <;> rfl
  have p2pg : f2.page = f1.page := by
    rcases c2 with ⟨_, rfl⟩ | ⟨_, _, _, rfl⟩ <;> rfl
  have p2lim : f2.limit = f1.limit := by
    rcases c2 with ⟨_, rfl⟩ | ⟨_, _, _, rfl⟩ <;> rfl
  have p2ty : f2.recommendation_type = f1.recommendation_type := by
    rcases c2 with ⟨_, rfl⟩ | ⟨_, _, _, rfl⟩ <;> rfl
  have p2st : f2.status = f1.status := by
    rcases c2 with ⟨_, rfl⟩ | ⟨_, _, _, rfl⟩ <;> rfl
  have p2sb : f2.sort_by = f1.sort_by := by
    rcases c2 with ⟨_, rfl⟩ | ⟨_, _, _, rfl⟩ <;> rfl
  have p2or : f2.order = f1.order := by
    rcases c2 with ⟨_, rfl⟩ | ⟨_, _, _, rfl⟩ <;> rfl
  have a3 : args.page = none → f3.page = f2.page := by
    intro ha
    rcases c3 with ⟨_, rfl⟩ | ⟨hne, _⟩
    · rfl
    · exact absurd ha hne
  have b3 : args.page ≠ none →
      ∃ n, parse_int_param raw "page" = Except.ok n ∧ f3.page = some n := by
    intro ha
    rcases c3 with ⟨he, _⟩ | ⟨_, n, hp, rfl⟩
    · exact absurd he ha
    · exact ⟨n, hp, rfl⟩
  have p3pid : f3.product_id = f2.product_id := by
    rcases c3 with ⟨_, rfl⟩ | ⟨_, _, _, rfl⟩ <;> rfl
  have p3rid : f3.recommended_id = f2.recommended_id := by
    rcases c3 with ⟨_, rfl⟩ | ⟨_, _, _, rfl⟩ <;> rfl
  have p3lim : f3.limit = f2.limit := by
    rcases c3 with ⟨_, rfl⟩ | ⟨_, _, _, rfl⟩ <;> rfl
  have p3ty : f3.recommendation_type = f2.recommendation_type := by
    rcases c3 with ⟨_, rfl⟩ | ⟨_, _, _, rfl⟩ <;> rfl
  have p3st : f3.status = f2.status := by
    rcases c3 with ⟨_, rfl⟩ | ⟨_, _, _, rfl⟩ <;> rfl
  have p3sb : f3.sort_by = f2.sort_by := by
    rcases c3 with ⟨_, rfl⟩ | ⟨_, _, _, rfl⟩ <;> rfl
  have p3or : f3.order = f2.order := by
    rcases c3 with ⟨_, rfl⟩ | ⟨_, _, _, rfl⟩ <;> rfl
  have a4 : args.limit = none → f4.limit = f3.limit := by
    intro ha
    rcases c4 with ⟨_, rfl⟩ | ⟨hne, _⟩
    · rfl
    · exact absurd ha hne
  have b4 : args.limit ≠ none →
      ∃ n, parse_int_param raw "limit" = Except.ok n ∧ f4.limit = some n := by
    intro ha
    rcases c4 with ⟨he, _⟩ | ⟨_, n, hp, rfl⟩
    · exact absurd he ha
    · exact ⟨n, hp, rfl⟩
  have p4pid : f4.product_id = f3.product_id := by
    rcases c4 with ⟨_, rfl⟩ | ⟨_, _, _, rfl⟩ <;> rfl
  have p4rid : f4.recommended_id = f3.recommended_id := by
    rcases c4 with ⟨_, rfl⟩ | ⟨_, _, _, rfl⟩ <;> rfl
  have p4pg : f4.page = f3.page := by
    rcases c4 with ⟨_, rfl⟩ | ⟨_, _, _, rfl⟩ <;> rfl
  have p4ty : f4.recommendation_type = f3.recommendation_type := by
    rcases c4 with ⟨_, rfl⟩ | ⟨_, _, _, rfl⟩ <;> rfl
  have p4st : f4.status = f3.status := by
    rcases c4 with ⟨_, rfl⟩ | ⟨_, _, _, rfl⟩ <;> rfl
  have p4sb : f4.sort_by = f3.sort_by := by
    rcases c4 with ⟨_, rfl⟩ | ⟨_, _, _, rfl⟩ <;> rfl
  have p4or : f4.order = f3.order := by
    rcases c4 with ⟨_, rfl⟩ | ⟨_, _, _, rfl⟩ <;> rfl
  have a5 : args.recommendation_type = none →
      f5.recommendation_type = f4.recommendation_type := by
    intro ha
    rcases c5 with ⟨_, rfl⟩ | ⟨w2, he, _, _⟩
    · rfl
    · rw [ha] at he
      exact Option.noConfusion he
  have b5 : ∀ w, args.recommendation_type = some w →
      w ∈ ["cross-sell", "up-sell", "accessory"] ∧ f5.recommendation_type = some w := by
    intro w hw
    rcases c5 with ⟨he, _⟩ | ⟨w2, he, hm, rfl⟩
    · rw [hw] at he
      exact Option.noConfusion he
    · rw [hw] at he
      injection he with hww
      subst hww
      exact ⟨hm, rfl⟩
  have p5pid : f5.product_id = f4.product_id := by
    rcases c5 with ⟨_, rfl⟩ | ⟨_, _, _, rfl⟩ <;> rfl
  have p5rid : f5.recommended_id = f4.recommended_id := by
    rcases c5 with ⟨_, rfl⟩ | ⟨_, _, _, rfl⟩ <;> rfl
  have p5pg : f5.page = f4.page := by
    rcases c5 with ⟨_, rfl⟩ | ⟨_, _, _, rfl⟩ <;> rfl
  have p5lim : f5.limit = f4.limit := by
    rcases c5 with ⟨_, rfl⟩ | ⟨_, _, _, rfl⟩ <;> rfl
  have p5st : f5.status = f4.status := by
    rcases c5 with ⟨_, rfl⟩ | ⟨_, _, _, rfl⟩ <;> rfl
  have p5sb : f5.sort_by = f4.sort_by := by
    rcases c5 with ⟨_, rfl⟩ | ⟨_, _, _, rfl⟩ <;> rfl
  have p5or : f5.order = f4.order := by
    rcases c5 with ⟨_, rfl⟩ | ⟨_, _, _, rfl⟩ <;> rfl
  have a6 : args.status = none → f6.status = f5.status := by
    intro ha
    rcases c6 with ⟨_, rfl⟩ | ⟨w2, he, _, _⟩
    · rfl
    · rw [ha] at he
      exact Option.noConfusion he
  have b6 : ∀ w, args.status = some w →
      w ∈ ["active", "expired", "draft"] ∧ f6.status = some w := by
    intro w hw
    rcases c6 with ⟨he, _⟩ | ⟨w2, he, hm, rfl⟩
    · rw [hw] at he
      exact Option.noConfusion he
    · rw [hw] at he
      injection he with hww
      subst hww
      exact ⟨hm, rfl⟩
  have p6pid : f6.product_id = f5.product_id := by
    rcases c6 with ⟨_, rfl⟩ | ⟨_, _, _, rfl⟩ <;> rfl
  have p6rid : f6.recommended_id = f5.recommended_id := by
    rcases c6 with ⟨_, rfl⟩ | ⟨_, _, _, rfl⟩ <;> rfl
  have p6pg : f6.page = f5.page := by
    rcases c6 with ⟨_, rfl⟩ | ⟨_, _, _, rfl⟩ <;> rfl
  have p6lim : f6.limit = f5.limit := by
    rcases c6 with ⟨_, rfl⟩ | ⟨_, _, _, rfl⟩ <;> rfl
  have p6ty : f6.recommendation_type = f5.recommendation_type := by
    rcases c6 with ⟨_, rfl⟩ | ⟨_, _, _, rfl⟩ <;> rfl
  have p6sb : f6.sort_by = f5.sort_by := by
    rcases c6 with ⟨_, rfl⟩ | ⟨_, _, _, rfl⟩ <;> rfl
  have p6or : f6.order = f5.order := by
    rcases c6 with ⟨_, rfl⟩ | ⟨_, _, _, rfl⟩ <;> rfl
  have fpid : f.product_id = f6.product_id := by
    rw [← h]
    cases args.sort_by <;> cases args.order <;> rfl
  have frid : f.recommended_id = f6.recommended_id := by
    rw [← h]
    cases args.sort_by <;> cases args.order <;> rfl
  have fpg : f.page = f6.page := by
    rw [← h]
    cases args.sort_by <;> cases args.order <;> rfl
  have flim : f.limit = f6.limit := by
    rw [← h]
    cases args.sort_by <;> cases args.order <;> rfl
  have fty : f.recommendation_type = f6.recommendation_type := by
    rw [← h]
    cases args.sort_by <;> cases args.order <;> rfl
  have fst : f.status = f6.status := by
    rw [← h]
    cases args.sort_by <;> cases args.order <;> rfl
  have fsb : f.sort_by = args.sort_by ∨ (args.sort_by = none ∧ f.sort_by = f6.sort_by) := by
    rw [← h]
    cases hso : args.sort_by <;> cases hor : args.order
    · exact Or.inr ⟨rfl, rfl⟩
    · exact Or.inr ⟨rfl, rfl⟩
    · exact Or.inl rfl
    · exact Or.inl rfl
  have forr : f.order = args.order ∨ (args.order = none ∧ f.order = f6.order) := by
    rw [← h]
    cases hso : args.sort_by <;> cases hor : args.order
    · exact Or.inr ⟨rfl, rfl⟩
    · exact Or.inl rfl
    · exact Or.inr ⟨rfl, rfl⟩
    · exact Or.inl rfl
  refine ⟨?_, ?_, ?_, ?_, ?_, ?_, ?_, ?_, ?_, ?_, ?_, ?_, ?_, ?_⟩
  · intro ha
    rw [fpid, p6pid, p5pid, p4pid, p3pid, p2pid]
    exact a1 ha
  · intro ha
    obtain ⟨n, hp, hf⟩ := b1 ha
    exact ⟨n, hp, by rw [fpid, p6pid, p5pid, p4pid, p3pid, p2pid, hf]⟩
  · intro ha
    rw [frid, p6rid, p5rid, p4rid, p3rid, a2 ha, n1rid]
  · intro ha
    obtain ⟨n, hp, hf⟩ := b2 ha
    exact ⟨n, hp, by rw [frid, p6rid, p5rid, p4rid, p3rid, hf]⟩
  · intro ha
    rw [fpg, p6pg, p5pg, p4pg, a3 ha, p2pg, n1pg]
  · intro ha
    obtain ⟨n, hp, hf⟩ := b3 ha
    exact ⟨n, hp, by rw [fpg, p6pg, p5pg, p4pg, hf]⟩
  · intro ha
    rw [flim, p6lim, p5lim, a4 ha, p3lim, p2lim, n1lim]
  · intro ha
    obtain ⟨n, hp, hf⟩ := b4 ha
    exact ⟨n, hp, by rw [flim, p6lim, p5lim, hf]⟩
  · intro ha
    rw [fty, p6ty, a5 ha, p4ty, p3ty, p2ty, n1ty]
  · intro w hw
    obtain ⟨hm, hf⟩ := b5 w hw
    exact ⟨hm, by rw [fty, p6ty, hf]⟩
  · intro ha
    rw [fst, a6 ha, p5st, p4st, p3st, p2st, n1st]
  · intro w hw
    obtain ⟨hm, hf⟩ := b6 w hw
    exact ⟨hm, by rw [fst, hf]⟩
  · rcases fsb with hq | ⟨hnone, hq⟩
    · exact hq
    · rw [hq, p6sb, p5sb, p4sb, p3sb, p2sb, n1sb, hnone]
  · rcases forr with hq | ⟨hnone, hq⟩
    · exact hq
    · rw [hq, p6or, p5or, p4or, p3or, p2or, n1or, hnone]

lemma bind_error_of_error {α β : Type} (x : Except String α) (g : α → Except String β)
    (e : String) (h : x = Except.error e) : Except.bind x g = Except.error e := by
  rw [h]
  rfl

lemma parseIntArg_bad (raw : QueryArgs) (name : String) (s : String)
    (hg : getArg raw name = some s) (hbad : pythonInt s = none) :
    parseIntArg raw name = Except.error ("invalid literal for the argument " ++ name) := by
  simp [parseIntArg, hg, hbad]

lemma parse_args_error_of_bad_int (raw : QueryArgs) (s : String)
    (hbad : pythonInt s = none)
    (hc : getArg raw "product_id" = some s ∨ getArg raw "recommended_id" = some s ∨
      getArg raw "page" = some s ∨ getArg raw "limit" = some s) :
    ∃ e, parse_args raw = Except.error e := by
  unfold parse_args
  rcases hc with h1 | h1 | h1 | h1
  · rw [parseIntArg_bad raw _ s h1 hbad]
    exact ⟨_, rfl⟩
  · cases hA : parseIntArg raw "product_id" with
    | error e => exact ⟨e, rfl⟩
    | ok pid =>
      rw [parseIntArg_bad raw _ s h1 hbad]
      exact ⟨_, rfl⟩
  · cases hA : parseIntArg raw "product_id" with
    | error e => exact ⟨e, rfl⟩
    | ok pid =>
      cases hB : parseIntArg raw "recommended_id" with
      | error e => exact ⟨e, rfl⟩
      | ok rcid =>
        rw [parseIntArg_bad raw _ s h1 hbad]
        exact ⟨_, rfl⟩
  · cases hA : parseIntArg raw "product_id" with
    | error e => exact ⟨e, rfl⟩
    | ok pid =>
      cases hB : parseIntArg raw "recommended_id" with
      | error e => exact ⟨e, rfl⟩
      | ok rcid =>
        cases hC : parseIntArg raw "page" with
        | error e => exact ⟨e, rfl⟩
        | ok pg =>
          rw [parseIntArg_bad raw _ s h1 hbad]
          exact ⟨_, rfl⟩

lemma filters_enum_error_type (raw : QueryArgs) (args : ParsedArgs) (v : String)
    (hv : args.recommendation_type = some v)
    (hnv : v ∉ ["cross-sell", "up-sell", "accessory"]) :
    ∃ e, filters_from_args raw args = Except.error e := by
  unfold filters_from_args
  apply bind_exists_error; intro fa
  apply bind_exists_error; intro fb
  apply bind_exists_error; intro fc
  apply bind_exists_error; intro fd
  rw [hv]
  have hval : validate_enum_param "recommendation_type" v ["cross-sell", "up-sell", "accessory"]
      = Except.error ("Invalid " ++ "recommendation_type" ++ ": must be one of the valid options") := by
    unfold validate_enum_param
    rw [if_neg hnv]
  exact ⟨_, bind_error_of_error _ _ _ (bind_error_of_error _ _ _ hval)⟩

lemma filters_enum_error_status (raw : QueryArgs) (args : ParsedArgs) (v : String)
    (hv : args.status = some v) (hnv : v ∉ ["active", "expired", "draft"]) :
    ∃ e, filters_from_args raw args = Except.error e := by
  unfold filters_from_args
  apply bind_exists_error; intro fa
  apply bind_exists_error; intro fb
  apply bind_exists_error; intro fc
  apply bind_exists_error; intro fd
  apply bind_exists_error; intro fe
  rw [hv]
  have hval : validate_enum_param "status" v ["active", "expired", "draft"]
      = Except.error ("Invalid " ++ "status" ++ ": must be one of the valid options") := by
    unfold validate_enum_param
    rw [if_neg hnv]
  exact ⟨_, bind_error_of_error _ _ _ (bind_error_of_error _ _ _ hval)⟩

lemma parseIntArg_ok_char (raw : QueryArgs) (name : String) (v : Option Int)
    (h : parseIntArg raw name = Except.ok v) :
    (getArg raw name = none → v = none) ∧
    (∀ s, getArg raw name = some s → ∃ n, pythonInt s = some n ∧ v = some n) := by
  constructor
  · intro hg
    simp [parseIntArg, hg] at h
    exact h.symm
  · intro s hg
    cases hp : pythonInt s with
    | none => simp [parseIntArg, hg, hp] at h
    | some n =>
      simp [parseIntArg, hg, hp] at h
      exact ⟨n, rfl, h.symm⟩

lemma parse_int_param_of (raw : QueryArgs) (name : String) (s : String) (n : Int)
    (hg : getArg raw name = some s) (hp : pythonInt s = some n) :
    parse_int_param raw name = Except.ok n := by
  simp [parse_int_param, hg, hp]

lemma parse_int_param_char (raw : QueryArgs) (name : String) (n : Int)
    (h : parse_int_param raw name = Except.ok n) :
    ∃ s, getArg raw name = some s ∧ pythonInt s = some n := by
  cases hg : getArg raw name with
  | none => simp [parse_int_param, hg] at h
  | some s =>
    cases hp : pythonInt s with
    | none => simp [parse_int_param, hg, hp] at h
    | some m =>
      simp [parse_int_param, hg, hp] at h
      exact ⟨s, rfl, by rw [hp, h]⟩

lemma parse_args_ok_fields (raw : QueryArgs) (args : ParsedArgs)
    (h : parse_args raw = Except.ok args) :
    parseIntArg raw "product_id" = Except.ok args.product_id ∧
    parseIntArg raw "recommended_id" = Except.ok args.recommended_id ∧
    parseIntArg raw "page" = Except.ok args.page ∧
    parseIntArg raw "limit" = Except.ok args.limit ∧
    args.recommendation_type = getArg raw "recommendation_type" ∧
    args.status = getArg raw "status" ∧
    args.sort_by = getArg raw "sort_by" ∧
    args.order = getArg raw "order" := by
  unfold parse_args at h
  split at h
  · exact absurd h (by simp)
  · split at h
    · exact absurd h (by simp)
    · split at h
      · exact absurd h (by simp)
      · split at h
        · exact absurd h (by simp)
        · rw [Except.ok.injEq] at h
          subst h
          simp_all

lemma listFilters_ok_split (raw : QueryArgs) (f : Filters)
    (h : listFilters raw = Except.ok f) :
    ∃ args, parse_args raw = Except.ok args ∧ filters_from_args raw args = Except.ok f := by
  unfold listFilters at h
  cases hp : parse_args raw with
  | error e =>
    rw [hp] at h
    exact Except.noConfusion h
  | ok args =>
    rw [hp] at h
    exact ⟨args, rfl, h⟩

/-- Claim C3: for every set of raw query parameters, the filter construction
of the list route fails with a 400 error when any of `product_id`,
`recommended_id`, `page` or `limit` is present but does not parse as an
integer, and when such a parameter is present and parses, its integer value
is placed in the filter specification. -/
theorem int_params_validated (raw : QueryArgs) (s : String) :
    ((getArg raw "product_id" = some s ∨ getArg raw "recommended_id" = some s ∨
      getArg raw "page" = some s ∨ getArg raw "limit" = some s) →
      pythonInt s = none → ∃ e, listFilters raw = Except.error e) ∧
    (∀ n f, pythonInt s = some n → listFilters raw = Except.ok f →
      (getArg raw "product_id" = some s → f.product_id = some n) ∧
      (getArg raw "recommended_id" = some s → f.recommended_id = some n) ∧
      (getArg raw "page" = some s → f.page = some n) ∧
      (getArg raw "limit" = some s → f.limit = some n)) := by
  constructor
  · intro hc hbad
    obtain ⟨e, he⟩ := parse_args_error_of_bad_int raw s hbad hc
    unfold listFilters
    rw [he]
    exact ⟨e, rfl⟩
  · intro n f hn hf
    obtain ⟨args, hpa, hff⟩ := listFilters_ok_split raw f hf
    obtain ⟨hfp, hfr, hfg, hfl, hft, hfs, hfsb, hfor⟩ := parse_args_ok_fields raw args hpa
    obtain ⟨cpid0, cpid1, crid0, crid1, cpg0, cpg1, clim0, clim1,
      cty0, cty1, cst0, cst1, csb, cor⟩ := filters_from_args_ok_char raw args f hff
    refine ⟨?_, ?_, ?_, ?_⟩
    · intro hg
      obtain ⟨m, hm, hvm⟩ := (parseIntArg_ok_char raw _ args.product_id hfp).2 s hg
      obtain ⟨m2, hm2, hf2⟩ := cpid1 (by rw [hvm]; exact Option.noConfusion)
      rw [parse_int_param_of raw _ s n hg hn] at hm2
      rw [hf2, ← Except.ok.inj hm2]
    · intro hg
      obtain ⟨m, hm, hvm⟩ := (parseIntArg_ok_char raw _ args.recommended_id hfr).2 s hg
      obtain ⟨m2, hm2, hf2⟩ := crid1 (by rw [hvm]; exact Option.noConfusion)
      rw [parse_int_param_of raw _ s n hg hn] at hm2
      rw [hf2, ← Except.ok.inj hm2]
    · intro hg
      obtain ⟨m, hm, hvm⟩ := (parseIntArg_ok_char raw _ args.page hfg).2 s hg
      obtain ⟨m2, hm2, hf2⟩ := cpg1 (by rw [hvm]; exact Option.noConfusion)
      rw [parse_int_param_of raw _ s n hg hn] at hm2
      rw [hf2, ← Except.ok.inj hm2]
    · intro hg
      obtain ⟨m, hm, hvm⟩ := (parseIntArg_ok_char raw _ args.limit hfl).2 s hg
      obtain ⟨m2, hm2, hf2⟩ := clim1 (by rw [hvm]; exact Option.noConfusion)
      rw [parse_int_param_of raw _ s n hg hn] at hm2
      rw [hf2, ← Except.ok.inj hm2]

/-- Claim C4: for every set of raw query parameters, the filter construction
fails with a 400 error when `recommendation_type` is present and not one of
cross-sell, up-sell, accessory, or when `status` is present and not one of
active, expired, draft; a present and valid value is placed unchanged in
the filter specification. -/
theorem enum_params_validated (raw : QueryArgs) (v : String) :
    (getArg raw "recommendation_type" = some v →
      v ∉ ["cross-sell", "up-sell", "accessory"] →
      ∃ e, listFilters raw = Except.error e) ∧
    (getArg raw "status" = some v → v ∉ ["active", "expired", "draft"] →
      ∃ e, listFilters raw = Except.error e) ∧
    (∀ f, listFilters raw = Except.ok f →
      (getArg raw "recommendation_type" = some v → f.recommendation_type = some v) ∧
      (getArg raw "status" = some v → f.status = some v)) := by
  refine ⟨?_, ?_, ?_⟩
  · intro hg hnv
    unfold listFilters
    cases hpa : parse_args raw with
    | error e => exact ⟨e, rfl⟩
    | ok args =>
      have hty : args.recommendation_type = some v := by
        rw [(parse_args_ok_fields raw args hpa).2.2.2.2.1, hg]
      exact filters_enum_error_type raw args v hty hnv
  · intro hg hnv
    unfold listFilters
    cases hpa : parse_args raw with
    | error e => exact ⟨e, rfl⟩
    | ok args =>
      have hst : args.status = some v := by
        rw [(parse_args_ok_fields raw args hpa).2.2.2.2.2.1, hg]
      exact filters_enum_error_status raw args v hst hnv
  · intro f hf
    obtain ⟨args, hpa, hff⟩ := listFilters_ok_split raw f hf
    obtain ⟨hfp, hfr, hfg, hfl, hft, hfs, hfsb, hfor⟩ := parse_args_ok_fields raw args hpa
    obtain ⟨cpid0, cpid1, crid0, crid1, cpg0, cpg1, clim0, clim1,
      cty0, cty1, cst0, cst1, csb, cor⟩ := filters_from_args_ok_char raw args f hff
    constructor
    · intro hg
      exact (cty1 v (by rw [hft, hg])).2
    · intro hg
      exact (cst1 v (by rw [hfs, hg])).2

/-- Claim C5: on success the filter specification has an entry exactly for
each of the eight recognised parameters present in the raw query (absent
parameters are omitted, the empty query yields the empty filter), and
`sort_by` and `order` are passed through without validation. -/
theorem filter_keys_exact (raw : QueryArgs) (f : Filters)
    (h : listFilters raw = Except.ok f) :
    f.product_id.isSome = (getArg raw "product_id").isSome ∧
    f.recommended_id.isSome = (getArg raw "recommended_id").isSome ∧
    f.page.isSome = (getArg raw "page").isSome ∧
    f.limit.isSome = (getArg raw "limit").isSome ∧
    f.recommendation_type.isSome = (getArg raw "recommendation_type").isSome ∧
    f.status.isSome = (getArg raw "status").isSome ∧
    f.sort_by = getArg raw "sort_by" ∧
    f.order = getArg raw "order" ∧
    listFilters [] = Except.ok {} := by
  obtain ⟨args, hpa, hff⟩ := listFilters_ok_split raw f h
  obtain ⟨hfp, hfr, hfg, hfl, hft, hfs, hfsb, hfor⟩ := parse_args_ok_fields raw args hpa
  obtain ⟨cpid0, cpid1, crid0, crid1, cpg0, cpg1, clim0, clim1,
    cty0, cty1, cst0, cst1, csb, cor⟩ := filters_from_args_ok_char raw args f hff
  refine ⟨?_, ?_, ?_, ?_, ?_, ?_, ?_, ?_, by rfl⟩
  · cases hg : getArg raw "product_id" with
    | none =>
      rw [cpid0 ((parseIntArg_ok_char raw _ args.product_id hfp).1 hg)]
      rfl
    | some s =>
      obtain ⟨m, hm, hvm⟩ := (parseIntArg_ok_char raw _ args.product_id hfp).2 s hg
      obtain ⟨m2, hm2, hf2⟩ := cpid1 (by rw [hvm]; exact Option.noConfusion)
      rw [hf2]
      rfl
  · cases hg : getArg raw "recommended_id" with
    | none =>
      rw [crid0 ((parseIntArg_ok_char raw _ args.recommended_id hfr).1 hg)]
      rfl
    | some s =>
      obtain ⟨m, hm, hvm⟩ := (parseIntArg_ok_char raw _ args.recommended_id hfr).2 s hg
      obtain ⟨m2, hm2, hf2⟩ := crid1 (by rw [hvm]; exact Option.noConfusion)
      rw [hf2]
      rfl
  · cases hg : getArg raw "page" with
    | none =>
      rw [cpg0 ((parseIntArg_ok_char raw _ args.page hfg).1 hg)]
      rfl
    | some s =>
      obtain ⟨m, hm, hvm⟩ := (parseIntArg_ok_char raw _ args.page hfg).2 s hg
      obtain ⟨m2, hm2, hf2⟩ := cpg1 (by rw [hvm]; exact Option.noConfusion)
      rw [hf2]
      rfl
  · cases hg : getArg raw "limit" with
    | none =>
      rw [clim0 ((parseIntArg_ok_char raw _ args.limit hfl).1 hg)]
      rfl
    | some s =>
      obtain ⟨m, hm, hvm⟩ := (parseIntArg_ok_char raw _ args.limit hfl).2 s hg
      obtain ⟨m2, hm2, hf2⟩ := clim1 (by rw [hvm]; exact Option.noConfusion)
      rw [hf2]
      rfl
  · cases hg : getArg raw "recommendation_type" with
    | none =>
      rw [cty0 (by rw [hft, hg])]
    | some v =>
      rw [(cty1 v (by rw [hft, hg])).2]
  · cases hg : getArg raw "status" with
    | none =>
      rw [cst0 (by rw [hfs, hg])]
    | some v =>
      rw [(cst1 v (by rw [hfs, hg])).2]
  · rw [csb, hfsb]
  · rw [cor, hfor]

/-- Claim C9: the filter construction is a pure function of the eight
recognised query parameters: two queries that agree on them (and may differ
anywhere else) produce identical filter specifications or identical
errors. -/
theorem filters_deterministic (raw1 raw2 : QueryArgs)
    (h : ∀ name, name ∈ ["product_id", "recommended_id", "recommendation_type",
      "status", "page", "limit", "sort_by", "order"] →
      getArg raw1 name = getArg raw2 name) :
    listFilters raw1 = listFilters raw2 := by
  have h1 := h "product_id" (by simp)
  have h2 := h "recommended_id" (by simp)
  have h3 := h "recommendation_type" (by simp)
  have h4 := h "status" (by simp)
  have h5 := h "page" (by simp)
  have h6 := h "limit" (by simp)
  have h7 := h "sort_by" (by simp)
  have h8 := h "order" (by simp)
  have e1 : parseIntArg raw1 "product_id" = parseIntArg raw2 "product_id" := by
    unfold parseIntArg
    rw [h1]
  have e2 : parseIntArg raw1 "recommended_id" = parseIntArg raw2 "recommended_id" := by
    unfold parseIntArg
    rw [h2]
  have e3 : parseIntArg raw1 "page" = parseIntArg raw2 "page" := by
    unfold parseIntArg
    rw [h5]
  have e4 : parseIntArg raw1 "limit" = parseIntArg raw2 "limit" := by
    unfold parseIntArg
    rw [h6]
  have q1 : parse_int_param raw1 "product_id" = parse_int_param raw2 "product_id" := by
    unfold parse_int_param
    rw [h1]
  have q2 : parse_int_param raw1 "recommended_id" = parse_int_param raw2 "recommended_id" := by
    unfold parse_int_param
    rw [h2]
  have q3 : parse_int_param raw1 "page" = parse_int_param raw2 "page" := by
    unfold parse_int_param
    rw [h5]
  have q4 : parse_int_param raw1 "limit" = parse_int_param raw2 "limit" := by
    unfold parse_int_param
    rw [h6]
  have hpa : parse_args raw1 = parse_args raw2 := by
    unfold parse_args
    rw [e1, e2, e3, e4, h3, h4, h7, h8]
  unfold listFilters
  rw [hpa]
  cases hx : parse_args raw2 with
  | error e => rfl
  | ok args =>
    show filters_from_args raw1 args = filters_from_args raw2 args
    unfold filters_from_args
    rw [q1, q2, q3, q4]

/-- Witness for C3 at concrete inputs: `page=2x` is rejected, `page=21`
lands in the filter as the integer 21. -/
theorem int_params_validated_witness :
    (∃ e, listFilters [("page", "2x")] = Except.error e) ∧
    ({ page := some 21 } : Filters).page = some 21 := by
  refine ⟨(int_params_validated [("page", "2x")] "2x").1 (by decide) (by decide), ?_⟩
  exact ((int_params_validated [("page", "21")] "21").2 21 { page := some 21 }
    (by decide) (by rfl)).2.2.1 (by decide)

/-- Witness for C4 at concrete inputs: `recommendation_type=bogus` is
rejected, `status=active` is passed through unchanged. -/
theorem enum_params_validated_witness :
    (∃ e, listFilters [("recommendation_type", "bogus")] = Except.error e) ∧
    ({ status := some "active" } : Filters).status = some "active" := by
  refine ⟨(enum_params_validated [("recommendation_type", "bogus")] "bogus").1
    (by decide) (by decide), ?_⟩
  exact ((enum_params_validated [("status", "active")] "active").2.2
    { status := some "active" } (by rfl)).2 (by decide)

/-- Witness for C5 at a concrete query with `status` and `sort_by` set. -/
theorem filter_keys_exact_witness :
    ({ status := some "active", sort_by := some "name" } : Filters).sort_by
      = getArg [("status", "active"), ("sort_by", "name")] "sort_by" :=
  (filter_keys_exact [("status", "active"), ("sort_by", "name")]
    { status := some "active", sort_by := some "name" } (by rfl)).2.2.2.2.2.2.1

/-- Witness for C9: an unrecognised extra parameter does not change the
result. -/
theorem filters_deterministic_witness :
    listFilters [("product_id", "5"), ("unknown", "x")] =
      listFilters [("product_id", "5")] :=
  filters_deterministic [("product_id", "5"), ("unknown", "x")] [("product_id", "5")]
    (by decide)

lemma find_some_id (store : Store) (rid : Int) (r : Recommendations)
    (h : Recommendations.find store rid = some r) : r.id = rid := by
  unfold Recommendations.find at h
  have := List.find?_some h
  simpa using this

lemma find_replace_same (store : Store) (rid : Int) (r r' : Recommendations)
    (h : Recommendations.find store rid = some r) (hid : r'.id = rid) :
    Recommendations.find (store.map fun old => if old.id == rid then r' else old) rid
      = some r' := by
  unfold Recommendations.find at h ⊢
  induction store with
  | nil => exact Option.noConfusion h
  | cons x xs ih =>
    rw [List.map_cons]
    by_cases hx : x.id = rid
    · simp [List.find?_cons, hx, hid]
    · have hpx : ¬((x.id == rid) = true) := by simp [hx]
      rw [List.find?_cons_of_neg (p := fun y : Recommendations => y.id == rid) _ hpx] at h
      have hhead : (if x.id == rid then r' else x) = x := by simp [hx]
      rw [hhead, List.find?_cons_of_neg (p := fun y : Recommendations => y.id == rid) _ hpx]
      exact ih h

lemma find_replace_other (store : Store) (rid oid : Int) (r' : Recommendations)
    (hne : oid ≠ rid) (hid : r'.id = rid) :
    Recommendations.find (store.map fun old => if old.id == rid then r' else old) oid
      = Recommendations.find store oid := by
  unfold Recommendations.find
  induction store with
  | nil => rfl
  | cons x xs ih =>
    rw [List.map_cons]
    by_cases hx : x.id = rid
    · have hhead : (if x.id == rid then r' else x) = r' := by simp [hx]
      rw [hhead]
      have hpr : ¬((r'.id == oid) = true) := by
        simp [hid]
        omega
      have hpx : ¬((x.id == oid) = true) := by
        simp [hx]
        omega
      rw [List.find?_cons_of_neg (p := fun y : Recommendations => y.id == oid) _ hpr,
        List.find?_cons_of_neg (p := fun y : Recommendations => y.id == oid) _ hpx]
      exact ih
    · have hhead : (if x.id == rid then r' else x) = x := by simp [hx]
      rw [hhead]
      by_cases ho : x.id = oid
      · rw [List.find?_cons_of_pos (p := fun y : Recommendations => y.id == oid) _ (by simp [ho]),
          List.find?_cons_of_pos (p := fun y : Recommendations => y.id == oid) _ (by simp [ho])]
      · rw [List.find?_cons_of_neg (p := fun y : Recommendations => y.id == oid) _ (by simp [ho]),
          List.find?_cons_of_neg (p := fun y : Recommendations => y.id == oid) _ (by simp [ho])]
        exact ih

lemma find_none_not_mem (store : Store) (rid : Int)
    (h : Recommendations.find store rid = none) :
    ∀ x ∈ store, x.id ≠ rid := by
  unfold Recommendations.find at h
  intro x hx
  have := List.find?_eq_none.mp h x hx
  simpa using this

lemma like_put_snd (store : Store) (rid : Int) (now : Nat) (r : Recommendations)
    (h : Recommendations.find store rid = some r) :
    (LikeResource.put store rid now).2 = store.map fun old =>
      if old.id == rid then { r with like := r.like + 1, last_updated := now }
      else old := by
  have hrid := find_some_id store rid r h
  simp [LikeResource.put, h, Recommendations.update, hrid]

lemma dislike_put_snd (store : Store) (rid : Int) (now : Nat) (r : Recommendations)
    (h : Recommendations.find store rid = some r) :
    (DislikeResource.put store rid now).2 = store.map fun old =>
      if old.id == rid then { r with dislike := r.dislike + 1, last_updated := now }
      else old := by
  have hrid := find_some_id store rid r h
  simp [DislikeResource.put, h, Recommendations.update, hrid]

lemma update_put_snd (store : Store) (rid : Int) (payload : Payload) (now : Nat)
    (r : Recommendations) (h : Recommendations.find store rid = some r) :
    (RecommendationResource.put store rid payload now).2 = store.map fun old =>
      if old.id == rid then
        { id := rid
          product_id := payload.product_id
          recommended_id := payload.recommended_id
          recommendation_type := payload.recommendation_type
          status := payload.status
          like := payload.like
          dislike := payload.dislike
          created_at := r.created_at
          last_updated := now }
      else old := by
  simp [RecommendationResource.put, h, Recommendations.deserialize, Recommendations.update]

/-- Claim C7: get-by-id returns the stored record with 200 when a record
with the id exists and fails with 404 when none does. -/
theorem get_found_or_404 (store : Store) (rid : Int) :
    (Recommendations.find store rid = none →
      RecommendationResource.get store rid = Except.error 404) ∧
    (∀ r, Recommendations.find store rid = some r →
      RecommendationResource.get store rid = Except.ok (r, 200)) := by
  constructor
  · intro h
    simp [RecommendationResource.get, h]
  · intro r h
    simp [RecommendationResource.get, h]

/-- Witness for C7 on the concrete two-record store. -/
theorem get_found_or_404_witness :
    RecommendationResource.get demoStore 1 = Except.ok (demoRec, 200) ∧
    RecommendationResource.get demoStore 9 = Except.error 404 :=
  ⟨(get_found_or_404 demoStore 1).2 demoRec (by decide),
   (get_found_or_404 demoStore 9).1 (by decide)⟩

/-- Claim C2: delete always answers 204, never 404; when the record exists
it is removed (and everything else kept), and when it does not exist the
store is unchanged. -/
theorem delete_idempotent (store : Store) (rid : Int) :
    (RecommendationResource.delete store rid).1 = 204 ∧
    (Recommendations.find store rid = none →
      (RecommendationResource.delete store rid).2 = store) ∧
    (∀ x, x ∈ (RecommendationResource.delete store rid).2 ↔ x ∈ store ∧ x.id ≠ rid) := by
  refine ⟨?_, ?_, ?_⟩
  · cases hf : Recommendations.find store rid <;>
      simp [RecommendationResource.delete, hf]
  · intro h
    simp [RecommendationResource.delete, h]
  · intro x
    cases hf : Recommendations.find store rid with
    | none =>
      have hno := find_none_not_mem store rid hf
      simp only [RecommendationResource.delete, hf]
      exact ⟨fun hx => ⟨hx, hno x hx⟩, fun hx => hx.1⟩
    | some r =>
      have hrid := find_some_id store rid r hf
      simp only [RecommendationResource.delete, hf]
      unfold Recommendations.delete
      rw [List.mem_filter]
      constructor
      · rintro ⟨hx, hb⟩
        rw [hrid] at hb
        exact ⟨hx, by simpa using hb⟩
      · rintro ⟨hx, hb⟩
        refine ⟨hx, ?_⟩
        rw [hrid]
        simpa using hb

/-- Witness for C2 on the concrete store: deleting a missing id answers 204
and leaves the store unchanged. -/
theorem delete_idempotent_witness :
    (RecommendationResource.delete demoStore 9).1 = 204 ∧
    (RecommendationResource.delete demoStore 9).2 = demoStore ∧
    (demoRec ∈ (RecommendationResource.delete demoStore 2).2 ↔
      demoRec ∈ demoStore ∧ demoRec.id ≠ 2) :=
  ⟨(delete_idempotent demoStore 9).1,
   (delete_idempotent demoStore 9).2.1 (by decide),
   (delete_idempotent demoStore 2).2.2 demoRec⟩

/-- Claim C1: like and dislike require an existing record (404 otherwise,
with the store untouched), increment the respective counter by exactly 1,
persist the change, and return the updated record with 200. -/
theorem like_dislike_increment (store : Store) (rid : Int) (now : Nat) :
    (Recommendations.find store rid = none →
      LikeResource.put store rid now = (Except.error 404, store) ∧
      DislikeResource.put store rid now = (Except.error 404, store)) ∧
    (∀ r, Recommendations.find store rid = some r →
      (LikeResource.put store rid now).1 =
        Except.ok ({ r with like := r.like + 1, last_updated := now }, 200) ∧
      Recommendations.find (LikeResource.put store rid now).2 rid =
        some { r with like := r.like + 1, last_updated := now } ∧
      (DislikeResource.put store rid now).1 =
        Except.ok ({ r with dislike := r.dislike + 1, last_updated := now }, 200) ∧
      Recommendations.find (DislikeResource.put store rid now).2 rid =
        some { r with dislike := r.dislike + 1, last_updated := now }) := by
  constructor
  · intro h
    exact ⟨by simp [LikeResource.put, h], by simp [DislikeResource.put, h]⟩
  · intro r h
    have hrid := find_some_id store rid r h
    refine ⟨?_, ?_, ?_, ?_⟩
    · simp [LikeResource.put, h, Recommendations.update]
    · rw [like_put_snd store rid now r h]
      exact find_replace_same store rid r _ h (by simp [hrid])
    · simp [DislikeResource.put, h, Recommendations.update]
    · rw [dislike_put_snd store rid now r h]
      exact find_replace_same store rid r _ h (by simp [hrid])

/-- Witness for C1: liking the record with `like=3` yields `like=4`,
persisted; a missing id yields 404. -/
theorem like_dislike_increment_witness :
    (LikeResource.put demoStore 1 7).1 =
      Except.ok ({ demoRec with like := 4, last_updated := 7 }, 200) ∧
    Recommendations.find (DislikeResource.put demoStore 1 7).2 1 =
      some { demoRec with dislike := 1, last_updated := 7 } ∧
    LikeResource.put demoStore 9 7 = (Except.error 404, demoStore) := by
  have hsome := (like_dislike_increment demoStore 1 7).2 demoRec (by decide)
  have hnone := (like_dislike_increment demoStore 9 7).1 (by decide)
  exact ⟨hsome.1, hsome.2.2.2, hnone.1⟩

/-- Claim C6: update requires an existing record (404 otherwise, for any
payload); it replaces the mutable fields from the payload, forces the
record id to the path parameter (the payload id is ignored, so identity
cannot change), persists, and returns the updated record with 200. -/
theorem update_fixes_id (store : Store) (rid : Int) (payload : Payload) (now : Nat) :
    (Recommendations.find store rid = none →
      RecommendationResource.put store rid payload now = (Except.error 404, store)) ∧
    (∀ r, Recommendations.find store rid = some r →
      (RecommendationResource.put store rid payload now).1 =
        Except.ok ({ id := rid
                     product_id := payload.product_id
                     recommended_id := payload.recommended_id
                     recommendation_type := payload.recommendation_type
                     status := payload.status
                     like := payload.like
                     dislike := payload.dislike
                     created_at := r.created_at
                     last_updated := now }, 200) ∧
      Recommendations.find (RecommendationResource.put store rid payload now).2 rid =
        some { id := rid
               product_id := payload.product_id
               recommended_id := payload.recommended_id
               recommendation_type := payload.recommendation_type
               status := payload.status
               like := payload.like
               dislike := payload.dislike
               created_at := r.created_at
               last_updated := now }) := by
  constructor
  · intro h
    simp [RecommendationResource.put, h]
  · intro r h
    refine ⟨?_, ?_⟩
    · simp [RecommendationResource.put, h, Recommendations.deserialize,
        Recommendations.update]
    · rw [update_put_snd store rid payload now r h]
      exact find_replace_same store rid r _ h (by simp)

/-- Witness for C6: a payload carrying `id=99` updates record 1 without
changing its identity; updating a missing id yields 404. -/
theorem update_fixes_id_witness :
    (RecommendationResource.put demoStore 1 demoPayload 9).1 =
      Except.ok (({ id := 1
                    product_id := 11
                    recommended_id := 21
                    recommendation_type := "up-sell"
                    status := "draft"
                    like := 7
                    dislike := 2
                    created_at := 0
                    last_updated := 9 } : Recommendations), 200) ∧
    RecommendationResource.put demoStore 9 demoPayload 9 = (Except.error 404, demoStore) :=
  ⟨((update_fixes_id demoStore 1 demoPayload 9).2 demoRec (by decide)).1,
   (update_fixes_id demoStore 9 demoPayload 9).1 (by decide)⟩

/-- Claim C8: like changes only the `like` field and dislike only the
`dislike` field of the targeted record (apart from the store-set
`last_updated` timestamp), and every record with a different id is
untouched. -/
theorem like_dislike_frame (store : Store) (rid : Int) (now : Nat)
    (r : Recommendations) (h : Recommendations.find store rid = some r) :
    (∃ rL, Recommendations.find (LikeResource.put store rid now).2 rid = some rL ∧
      rL.id = r.id ∧ rL.product_id = r.product_id ∧
      rL.recommended_id = r.recommended_id ∧
      rL.recommendation_type = r.recommendation_type ∧ rL.status = r.status ∧
      rL.dislike = r.dislike ∧ rL.created_at = r.created_at ∧
      rL.like = r.like + 1) ∧
    (∃ rD, Recommendations.find (DislikeResource.put store rid now).2 rid = some rD ∧
      rD.id = r.id ∧ rD.product_id = r.product_id ∧
      rD.recommended_id = r.recommended_id ∧
      rD.recommendation_type = r.recommendation_type ∧ rD.status = r.status ∧
      rD.like = r.like ∧ rD.created_at = r.created_at ∧
      rD.dislike = r.dislike + 1) ∧
    (∀ oid, oid ≠ rid →
      Recommendations.find (LikeResource.put store rid now).2 oid =
        Recommendations.find store oid ∧
      Recommendations.find (DislikeResource.put store rid now).2 oid =
        Recommendations.find store oid) := by
  have hrid := find_some_id store rid r h
  refine ⟨?_, ?_, ?_⟩
  · refine ⟨{ r with like := r.like + 1, last_updated := now }, ?_,
      rfl, rfl, rfl, rfl, rfl, rfl, rfl, rfl⟩
    rw [like_put_snd store rid now r h]
    exact find_replace_same store rid r _ h (by simp [hrid])
  · refine ⟨{ r with dislike := r.dislike + 1, last_updated := now }, ?_,
      rfl, rfl, rfl, rfl, rfl, rfl, rfl, rfl⟩
    rw [dislike_put_snd store rid now r h]
    exact find_replace_same store rid r _ h (by simp [hrid])
  · intro oid hne
    constructor
    · rw [like_put_snd store rid now r h]
      exact find_replace_other store rid oid _ hne (by simp [hrid])
    · rw [dislike_put_snd store rid now r h]
      exact find_replace_other store rid oid _ hne (by simp [hrid])

/-- Witness for C8 on the concrete store. -/
theorem like_dislike_frame_witness :
    (∃ rL, Recommendations.find (LikeResource.put demoStore 1 7).2 1 = some rL ∧
      rL.id = demoRec.id ∧ rL.product_id = demoRec.product_id ∧
      rL.recommended_id = demoRec.recommended_id ∧
      rL.recommendation_type = demoRec.recommendation_type ∧
      rL.status = demoRec.status ∧ rL.dislike = demoRec.dislike ∧
      rL.created_at = demoRec.created_at ∧ rL.like = demoRec.like + 1) ∧
    Recommendations.find (LikeResource.put demoStore 1 7).2 2 =
      Recommendations.find demoStore 2 := by
  have hfr := like_dislike_frame demoStore 1 7 demoRec (by decide)
  exact ⟨hfr.1, (hfr.2.2 2 (by decide)).1⟩

/-- Claim C10: whenever update, like, or dislike fails with 404 the store
is exactly what it was before the request (the existence check precedes
any mutation; get-by-id performs no mutation at all). -/
theorem notfound_leaves_store (store : Store) (rid : Int) (payload : Payload)
    (now : Nat) :
    ((RecommendationResource.put store rid payload now).1 = Except.error 404 →
      (RecommendationResource.put store rid payload now).2 = store) ∧
    ((LikeResource.put store rid now).1 = Except.error 404 →
      (LikeResource.put store rid now).2 = store) ∧
    ((DislikeResource.put store rid now).1 = Except.error 404 →
      (DislikeResource.put store rid now).2 = store) := by
  refine ⟨?_, ?_, ?_⟩
  · intro h
    cases hf : Recommendations.find store rid with
    | none => simp [RecommendationResource.put, hf]
    | some r => simp [RecommendationResource.put, hf] at h
  · intro h
    cases hf : Recommendations.find store rid with
    | none => simp [LikeResource.put, hf]
    | some r => simp [LikeResource.put, hf] at h
  · intro h
    cases hf : Recommendations.find store rid with
    | none => simp [DislikeResource.put, hf]
    | some r => simp [DislikeResource.put, hf] at h

/-- Witness for C10 on the concrete store at a missing id. -/
theorem notfound_leaves_store_witness :
    (RecommendationResource.put demoStore 9 demoPayload 7).2 = demoStore ∧
    (LikeResource.put demoStore 9 7).2 = demoStore ∧
    (DislikeResource.put demoStore 9 7).2 = demoStore :=
  ⟨(notfound_leaves_store demoStore 9 demoPayload 7).1 (by rfl),
   (notfound_leaves_store demoStore 9 demoPayload 7).2.1 (by rfl),
   (notfound_leaves_store demoStore 9 demoPayload 7).2.2 (by rfl)⟩
